import Mathlib

/-!
Shallow embedding of `GraphQueryGenerationStep.run`
(`src/graphrag_sdk/steps/graph_query_step.py`) and proofs about its
retry state machine.

The controller's external collaborators (chat session, response
extractor, schema validator, graph store, result-set helpers, template
formatting) live outside this file's source and are modelled as an
`Env` record of oracle functions; the control flow of `run` itself is
translated statement by statement.  Calls to the collaborators are
recorded in a trace so that observable effects (model sends, session
turn deletions, graph queries) can be stated and counted.
-/

/-- Substring test on lists of characters: `hasSubAux l pat` is true
iff `pat` occurs contiguously inside `l`.  This models the Python
expression `pat in s` on strings. -/
def hasSubAux : List Char → List Char → Bool
  | [], pat => pat.isEmpty
  | c :: l, pat => pat.isPrefixOf (c :: l) || hasSubAux l pat

/-- Substring test on strings, modelling Python `pat in s`. -/
def strHasSub (s pat : String) : Bool :=
  hasSubAux s.data pat.data

/-- Result of `extract_cypher` when it returns a truthy dict:
`hasError` records whether the key `"error"` is present; `context` is
the value of the `"context"` key (`none` when the key is absent or its
value is `None` — `run` treats those identically); `display` likewise
for the `"display"` key. -/
structure ExtractDict where
  hasError : Bool
  context : Option String
  display : Option String
deriving DecidableEq, Repr

/-- The object returned by `graph.query`: the rows and the reported
execution time in milliseconds. -/
structure QueryResult (Row : Type) where
  result_set : List Row
  run_time_ms : Nat
deriving DecidableEq, Repr

/-- One externally observable call made by `run`. -/
inductive Call where
  | sendMessage (prompt : String)
  | deleteLastMessage
  | graphQuery (cypher : String)
deriving DecidableEq, Repr

/-- Oracle functions for the collaborators of the step.  `send_message`
and `graph_query` are indexed by the number of calls of that kind made
so far, so a single `Env` value determines a whole interaction;
`.error e` models a raised exception whose `str` is `e`. -/
structure Env (Row : Type) where
  send_message : Nat → String → Except String String
  extract_cypher : String → Option ExtractDict
  validate_cypher : String → Option (List String)
  graph_query : Nat → String → Except String (QueryResult Row)
  check_falkordb_result_set_empty : List Row → Bool
  stringify_falkordb_response : List Row → String
  fmtFresh : String → String → String
  fmtHist : String → String → String → String

/-- Constructor state of `GraphQueryGenerationStep` that `run` reads:
the two prompt templates and the optional prior answer. -/
structure StepCfg where
  cypher_prompt : String
  cypher_prompt_with_history : String
  last_answer : Option String
deriving DecidableEq, Repr

/-- Mutable local state of one invocation of `run`, plus the trace of
external calls made so far.  `error = none` models the Python local
`error` being unbound. -/
structure LoopState where
  cypher_prompt : String
  last_empty_query : Option String
  error : Option String
  trace : List Call
deriving DecidableEq, Repr

/-- Outcome of an invocation of `run`: a returned 4-tuple, a raised
exception with the given message, or the `NameError` crash produced by
reading the unbound local `error`. -/
inductive RunResult where
  | ret (context : Option String) (cypher : Option String)
      (time : Option Nat) (display : Option String)
  | raised (msg : String)
  | nameError
deriving DecidableEq, Repr

def isSendCall : Call → Bool
  | .sendMessage _ => true
  | _ => false

def isDeleteCall : Call → Bool
  | .deleteLastMessage => true
  | _ => false

def isQueryCall : Call → Bool
  | .graphQuery _ => true
  | _ => false

/-- Number of model sends recorded in a trace. -/
def countSends (t : List Call) : Nat := (t.filter isSendCall).length

/-- Number of session-turn deletions recorded in a trace. -/
def countDeletes (t : List Call) : Nat := (t.filter isDeleteCall).length

/-- Number of graph-store queries recorded in a trace. -/
def countQueries (t : List Call) : Nat := (t.filter isQueryCall).length

/-- The repair instruction installed after an empty result set
(verbatim from the source). -/
def emptyResultPrompt (question : String) : String :=
  "The generated Cypher query returned an empty result set. If you are absolutely sure there is another way to formulate the query based on the ontology to answer the question, please try again. Otherwise, return the same Cypher query. The question to answer is: " ++ question

/-- The repair instruction installed after a non-rate-limit error
(verbatim from the source). -/
def errorRepairPrompt (e question : String) : String :=
  "The previous Cypher query you generated resulted in the following error: " ++ e ++ ". Please generate a new Cypher query that adheres to the ontology and avoids this error. The question to answer is: " ++ question

/-- The substring used by the source to classify rate-limit errors. -/
def rateLimitMarker : String := "litellm.RateLimitError"

/-- The initial prompt: `self.cypher_prompt.format(question=question)`
when no prior answer was supplied at construction, otherwise
`self.cypher_prompt_with_history.format(question=..., last_answer=...)`. -/
def buildPrompt {Row : Type} (env : Env Row) (cfg : StepCfg) (question : String) : String :=
  match cfg.last_answer with
  | none => env.fmtFresh cfg.cypher_prompt question
  | some la => env.fmtHist cfg.cypher_prompt_with_history question la

/-- The prompt that an iteration starting in state `s` sends: the
state's prompt, rebuilt from the templates when it is the empty
string. -/
def promptSent {Row : Type} (env : Env Row) (cfg : StepCfg) (question : String)
    (s : LoopState) : String :=
  if s.cypher_prompt = "" then buildPrompt env cfg question else s.cypher_prompt

/-- The `except` block of the loop body: record the error, then either
delete the last session turn (rate-limit classification, prompt left
unchanged) or install the error repair prompt. -/
def recover (question e : String) (s : LoopState) : LoopState :=
  if strHasSub e rateLimitMarker then
    { s with error := some e, trace := s.trace ++ [Call.deleteLastMessage] }
  else
    { s with error := some e, cypher_prompt := errorRepairPrompt e question }

/-- One iteration of the retry loop of `run`.  Returns the state after
the iteration and `some r` when the iteration returned from the
function, `none` when it fell through to the next iteration. -/
def oneAttempt {Row : Type} (env : Env Row) (cfg : StepCfg) (question : String)
    (s : LoopState) : LoopState × Option RunResult :=
  let prompt := promptSent env cfg question s
  let sendIdx := countSends s.trace
  let queryIdx := countQueries s.trace
  let s1 : LoopState :=
    { s with cypher_prompt := prompt, trace := s.trace ++ [Call.sendMessage prompt] }
  match env.send_message sendIdx prompt with
  | .error e => (recover question e s1, none)
  | .ok text =>
    match env.extract_cypher text with
    | none => (s1, some (RunResult.ret none none none none))
    | some result =>
      if result.hasError then (s1, some (RunResult.ret none none none none))
      else
        match result.context with
        | none => (s1, some (RunResult.ret none none none none))
        | some cypher =>
          match env.validate_cypher cypher with
          | some validation_errors =>
            (recover question (String.intercalate "\n" validation_errors) s1, none)
          | none =>
            -- `if cypher is not None:` is always true here: the guard above
            -- already returned when the context was absent or None.
            let s2 : LoopState := { s1 with trace := s1.trace ++ [Call.graphQuery cypher] }
            match env.graph_query queryIdx cypher with
            | .error e => (recover question e s2, none)
            | .ok query_result =>
              let result_set := query_result.result_set
              let execution_time := query_result.run_time_ms
              let is_empty_result := env.check_falkordb_result_set_empty result_set
              if is_empty_result = true ∧ s2.last_empty_query ≠ some cypher then
                ({ s2 with last_empty_query := some cypher,
                           cypher_prompt := emptyResultPrompt question }, none)
              else
                let context := env.stringify_falkordb_response result_set
                (s2, some (RunResult.ret (some context) (some cypher)
                  (some execution_time) result.display))

/-- The retry loop, with the remaining iteration count as fuel; when
the fuel is exhausted, the trailing `raise` runs: it crashes with a
`NameError` when no error was ever recorded. -/
def runLoop {Row : Type} (env : Env Row) (cfg : StepCfg) (question : String) :
    Nat → LoopState → RunResult × LoopState
  | 0, s =>
    (match s.error with
     | some e => RunResult.raised ("Failed to generate Cypher query: " ++ e)
     | none => RunResult.nameError, s)
  | Nat.succ n, s =>
    match oneAttempt env cfg question s with
    | (s', some r) => (r, s')
    | (s', none) => runLoop env cfg question n s'

/-- State at entry of `run`: empty prompt, no recorded empty query, no
recorded error, empty trace. -/
def initState : LoopState :=
  { cypher_prompt := "", last_empty_query := none, error := none, trace := [] }

/-- The embedded `GraphQueryGenerationStep.run`. -/
def run {Row : Type} (env : Env Row) (cfg : StepCfg) (question : String)
    (retries : Nat) : RunResult × LoopState :=
  runLoop env cfg question retries initState

/-- Characterisation of an iteration from state `s` raising an
exception whose string is `e`: the exception came from the model send,
from the internal validation-violation raise (where `e` is the joined
violation list), or from the graph-store query. -/
def attemptRaised {Row : Type} (env : Env Row) (cfg : StepCfg) (question : String)
    (s : LoopState) (e : String) : Prop :=
  env.send_message (countSends s.trace) (promptSent env cfg question s) = .error e
  ∨ (∃ text result cypher validation_errors,
      env.send_message (countSends s.trace) (promptSent env cfg question s) = .ok text
      ∧ env.extract_cypher text = some result
      ∧ result.hasError = false
      ∧ result.context = some cypher
      ∧ env.validate_cypher cypher = some validation_errors
      ∧ e = String.intercalate "\n" validation_errors)
  ∨ (∃ text result cypher,
      env.send_message (countSends s.trace) (promptSent env cfg question s) = .ok text
      ∧ env.extract_cypher text = some result
      ∧ result.hasError = false
      ∧ result.context = some cypher
      ∧ env.validate_cypher cypher = none
      ∧ env.graph_query (countQueries s.trace) cypher = .error e)

/-! ## Counting and substring lemmas -/

@[simp] theorem countSends_append (a b : List Call) :
    countSends (a ++ b) = countSends a + countSends b := by
  simp [countSends, List.filter_append]

@[simp] theorem countDeletes_append (a b : List Call) :
    countDeletes (a ++ b) = countDeletes a + countDeletes b := by
  simp [countDeletes, List.filter_append]

@[simp] theorem countQueries_append (a b : List Call) :
    countQueries (a ++ b) = countQueries a + countQueries b := by
  simp [countQueries, List.filter_append]

@[simp] theorem countSends_nil : countSends [] = 0 := rfl

@[simp] theorem countDeletes_nil : countDeletes [] = 0 := rfl

@[simp] theorem countQueries_nil : countQueries [] = 0 := rfl

@[simp] theorem countSends_cons_send (p : String) (t : List Call) :
    countSends (Call.sendMessage p :: t) = countSends t + 1 := by
  simp [countSends, List.filter_cons, isSendCall]

@[simp] theorem countSends_cons_delete (t : List Call) :
    countSends (Call.deleteLastMessage :: t) = countSends t := by
  simp [countSends, List.filter_cons, isSendCall]

@[simp] theorem countSends_cons_query (c : String) (t : List Call) :
    countSends (Call.graphQuery c :: t) = countSends t := by
  simp [countSends, List.filter_cons, isSendCall]

@[simp] theorem countDeletes_cons_send (p : String) (t : List Call) :
    countDeletes (Call.sendMessage p :: t) = countDeletes t := by
  simp [countDeletes, List.filter_cons, isDeleteCall]

@[simp] theorem countDeletes_cons_delete (t : List Call) :
    countDeletes (Call.deleteLastMessage :: t) = countDeletes t + 1 := by
  simp [countDeletes, List.filter_cons, isDeleteCall]

@[simp] theorem countDeletes_cons_query (c : String) (t : List Call) :
    countDeletes (Call.graphQuery c :: t) = countDeletes t := by
  simp [countDeletes, List.filter_cons, isDeleteCall]

@[simp] theorem countQueries_cons_send (p : String) (t : List Call) :
    countQueries (Call.sendMessage p :: t) = countQueries t := by
  simp [countQueries, List.filter_cons, isQueryCall]

@[simp] theorem countQueries_cons_delete (t : List Call) :
    countQueries (Call.deleteLastMessage :: t) = countQueries t := by
  simp [countQueries, List.filter_cons, isQueryCall]

@[simp] theorem countQueries_cons_query (c : String) (t : List Call) :
    countQueries (Call.graphQuery c :: t) = countQueries t + 1 := by
  simp [countQueries, List.filter_cons, isQueryCall]

theorem isPrefixOf_append_self (p r : List Char) : p.isPrefixOf (p ++ r) = true := by
  induction p with
  | nil => simp [List.isPrefixOf]
  | cons c cs ih => simp [List.isPrefixOf, ih]

theorem hasSubAux_nil_pat (l : List Char) : hasSubAux l [] = true := by
  cases l with
  | nil => rfl
  | cons c cs => simp [hasSubAux, List.isPrefixOf]

theorem hasSubAux_append_pat (a p r : List Char) : hasSubAux (a ++ (p ++ r)) p = true := by
  induction a with
  | nil =>
    cases p with
    | nil => simpa using hasSubAux_nil_pat r
    | cons c cs => simp [hasSubAux, List.isPrefixOf, isPrefixOf_append_self]
  | cons x xs ih => simp [hasSubAux, ih]

theorem strHasSub_sandwich (a p r : String) : strHasSub (a ++ p ++ r) p = true := by
  have hd : (a ++ p ++ r).data = a.data ++ (p.data ++ r.data) := by
    simp
  rw [strHasSub, hd]
  exact hasSubAux_append_pat a.data p.data r.data

theorem errorRepairPrompt_has_error (e question : String) :
    strHasSub (errorRepairPrompt e question) e = true := by
  rw [errorRepairPrompt, String.append_assoc]
  exact strHasSub_sandwich _ e _

/-! ## State shapes and branch lemmas for one iteration -/

/-- State of the loop immediately after the model send of an iteration
starting in `s` (prompt rebuilt when empty, send recorded). -/
def afterSend {Row : Type} (env : Env Row) (cfg : StepCfg) (question : String)
    (s : LoopState) : LoopState :=
  { s with cypher_prompt := promptSent env cfg question s,
           trace := s.trace ++ [Call.sendMessage (promptSent env cfg question s)] }

/-- State of the loop immediately after the graph-store query of an
iteration starting in `s`. -/
def afterQuery {Row : Type} (env : Env Row) (cfg : StepCfg) (question : String)
    (s : LoopState) (cypher : String) : LoopState :=
  { s with cypher_prompt := promptSent env cfg question s,
           trace := s.trace ++ [Call.sendMessage (promptSent env cfg question s),
                                Call.graphQuery cypher] }

set_option maxRecDepth 4000 in
theorem errorRepairPrompt_ne_empty (e question : String) :
    errorRepairPrompt e question ≠ "" := by
  intro h
  have hlen := congrArg String.length h
  rw [errorRepairPrompt] at hlen
  simp at hlen
  exact absurd hlen.1.1.1 (by decide)

set_option maxRecDepth 4000 in
theorem emptyResultPrompt_ne_empty (question : String) :
    emptyResultPrompt question ≠ "" := by
  intro h
  have hlen := congrArg String.length h
  rw [emptyResultPrompt] at hlen
  simp at hlen
  exact absurd hlen.1 (by decide)

theorem oneAttempt_send_error {Row : Type} (env : Env Row) (cfg : StepCfg)
    (question : String) (s : LoopState) (e : String)
    (hsend : env.send_message (countSends s.trace) (promptSent env cfg question s)
      = .error e) :
    oneAttempt env cfg question s
      = (recover question e (afterSend env cfg question s), none) := by
  simp only [oneAttempt, hsend, afterSend]

theorem oneAttempt_noAnswer {Row : Type} (env : Env Row) (cfg : StepCfg)
    (question : String) (s : LoopState) (text : String)
    (hsend : env.send_message (countSends s.trace) (promptSent env cfg question s)
      = .ok text)
    (hbad : env.extract_cypher text = none
      ∨ ∃ result, env.extract_cypher text = some result
          ∧ (result.hasError = true ∨ result.context = none)) :
    oneAttempt env cfg question s
      = (afterSend env cfg question s, some (RunResult.ret none none none none)) := by
  rcases hbad with hnone | ⟨result, hres, hcase⟩
  · simp only [oneAttempt, hsend, hnone, afterSend]
  · rcases hcase with herr | hctx
    · simp only [oneAttempt, hsend, hres, herr, if_true, afterSend]
    · simp only [oneAttempt, hsend, hres, hctx, afterSend]
      split <;> rfl

theorem oneAttempt_validation_fail {Row : Type} (env : Env Row) (cfg : StepCfg)
    (question : String) (s : LoopState) (text : String) (result : ExtractDict)
    (cypher : String) (validation_errors : List String)
    (hsend : env.send_message (countSends s.trace) (promptSent env cfg question s)
      = .ok text)
    (hres : env.extract_cypher text = some result)
    (herr : result.hasError = false)
    (hctx : result.context = some cypher)
    (hval : env.validate_cypher cypher = some validation_errors) :
    oneAttempt env cfg question s
      = (recover question (String.intercalate "\n" validation_errors)
          (afterSend env cfg question s), none) := by
  simp only [oneAttempt, hsend, hres, herr, hctx, hval, if_false, Bool.false_eq_true,
    afterSend]

theorem oneAttempt_query_error {Row : Type} (env : Env Row) (cfg : StepCfg)
    (question : String) (s : LoopState) (text : String) (result : ExtractDict)
    (cypher : String) (e : String)
    (hsend : env.send_message (countSends s.trace) (promptSent env cfg question s)
      = .ok text)
    (hres : env.extract_cypher text = some result)
    (herr : result.hasError = false)
    (hctx : result.context = some cypher)
    (hval : env.validate_cypher cypher = none)
    (hq : env.graph_query (countQueries s.trace) cypher = .error e) :
    oneAttempt env cfg question s
      = (recover question e (afterQuery env cfg question s cypher), none) := by
  simp only [oneAttempt, hsend, hres, herr, hctx, hval, hq, if_false, Bool.false_eq_true,
    afterQuery]
  simp

theorem oneAttempt_empty_retry {Row : Type} (env : Env Row) (cfg : StepCfg)
    (question : String) (s : LoopState) (text : String) (result : ExtractDict)
    (cypher : String) (query_result : QueryResult Row)
    (hsend : env.send_message (countSends s.trace) (promptSent env cfg question s)
      = .ok text)
    (hres : env.extract_cypher text = some result)
    (herr : result.hasError = false)
    (hctx : result.context = some cypher)
    (hval : env.validate_cypher cypher = none)
    (hq : env.graph_query (countQueries s.trace) cypher = .ok query_result)
    (hempty : env.check_falkordb_result_set_empty query_result.result_set = true)
    (hdiff : s.last_empty_query ≠ some cypher) :
    oneAttempt env cfg question s
      = ({ afterQuery env cfg question s cypher with
            last_empty_query := some cypher,
            cypher_prompt := emptyResultPrompt question }, none) := by
  simp only [oneAttempt, hsend, hres, herr, hctx, hval, hq, if_false, Bool.false_eq_true,
    afterQuery]
  simp [hempty, hdiff]

theorem oneAttempt_success_nonempty {Row : Type} (env : Env Row) (cfg : StepCfg)
    (question : String) (s : LoopState) (text : String) (result : ExtractDict)
    (cypher : String) (query_result : QueryResult Row)
    (hsend : env.send_message (countSends s.trace) (promptSent env cfg question s)
      = .ok text)
    (hres : env.extract_cypher text = some result)
    (herr : result.hasError = false)
    (hctx : result.context = some cypher)
    (hval : env.validate_cypher cypher = none)
    (hq : env.graph_query (countQueries s.trace) cypher = .ok query_result)
    (hempty : env.check_falkordb_result_set_empty query_result.result_set = false) :
    oneAttempt env cfg question s
      = (afterQuery env cfg question s cypher,
         some (RunResult.ret
           (some (env.stringify_falkordb_response query_result.result_set))
           (some cypher) (some query_result.run_time_ms) result.display)) := by
  simp only [oneAttempt, hsend, hres, herr, hctx, hval, hq, if_false, Bool.false_eq_true,
    afterQuery]
  simp [hempty]

theorem oneAttempt_success_repeat {Row : Type} (env : Env Row) (cfg : StepCfg)
    (question : String) (s : LoopState) (text : String) (result : ExtractDict)
    (cypher : String) (query_result : QueryResult Row)
    (hsend : env.send_message (countSends s.trace) (promptSent env cfg question s)
      = .ok text)
    (hres : env.extract_cypher text = some result)
    (herr : result.hasError = false)
    (hctx : result.context = some cypher)
    (hval : env.validate_cypher cypher = none)
    (hq : env.graph_query (countQueries s.trace) cypher = .ok query_result)
    (hrepeat : s.last_empty_query = some cypher) :
    oneAttempt env cfg question s
      = (afterQuery env cfg question s cypher,
         some (RunResult.ret
           (some (env.stringify_falkordb_response query_result.result_set))
           (some cypher) (some query_result.run_time_ms) result.display)) := by
  simp only [oneAttempt, hsend, hres, herr, hctx, hval, hq, if_false, Bool.false_eq_true,
    afterQuery]
  simp [hrepeat]

/-! ## Lemmas about `recover`, `promptSent` and the trace -/

theorem recover_error (question e : String) (s : LoopState) :
    (recover question e s).error = some e := by
  rw [recover]; split <;> rfl

theorem recover_last_empty (question e : String) (s : LoopState) :
    (recover question e s).last_empty_query = s.last_empty_query := by
  rw [recover]; split <;> rfl

theorem recover_sends (question e : String) (s : LoopState) :
    countSends (recover question e s).trace = countSends s.trace := by
  rw [recover]; split <;> simp

theorem recover_queries (question e : String) (s : LoopState) :
    countQueries (recover question e s).trace = countQueries s.trace := by
  rw [recover]; split <;> simp

theorem recover_rateLimit (question e : String) (s : LoopState)
    (h : strHasSub e rateLimitMarker = true) :
    recover question e s
      = { s with error := some e, trace := s.trace ++ [Call.deleteLastMessage] } := by
  rw [recover, if_pos h]

theorem recover_not_rateLimit (question e : String) (s : LoopState)
    (h : strHasSub e rateLimitMarker = false) :
    recover question e s
      = { s with error := some e, cypher_prompt := errorRepairPrompt e question } := by
  rw [recover]
  simp [h]

theorem promptSent_of_prompt_ne {Row : Type} (env : Env Row) (cfg : StepCfg)
    (question : String) (s : LoopState) (h : s.cypher_prompt ≠ "") :
    promptSent env cfg question s = s.cypher_prompt := by
  rw [promptSent, if_neg h]

theorem promptSent_of_carry {Row : Type} (env : Env Row) (cfg : StepCfg)
    (question : String) (s s' : LoopState)
    (h : s'.cypher_prompt = promptSent env cfg question s) :
    promptSent env cfg question s' = s'.cypher_prompt := by
  by_cases h1 : s'.cypher_prompt = ""
  · rw [promptSent] at h ⊢
    rw [if_pos h1, h1]
    by_cases h2 : s.cypher_prompt = ""
    · rw [if_pos h2] at h
      rw [← h]
      exact h1
    · rw [if_neg h2] at h
      exact absurd (h.symm.trans h1) h2
  · rw [promptSent, if_neg h1]

theorem oneAttempt_prompt_cases {Row : Type} (env : Env Row) (cfg : StepCfg)
    (question : String) (s : LoopState) :
    (oneAttempt env cfg question s).1.cypher_prompt = promptSent env cfg question s
    ∨ (∃ e, (oneAttempt env cfg question s).1.cypher_prompt = errorRepairPrompt e question)
    ∨ (oneAttempt env cfg question s).1.cypher_prompt = emptyResultPrompt question := by
  unfold oneAttempt recover
  dsimp only
  repeat' split
  all_goals first
    | (left; rfl)
    | (right; left; exact ⟨_, rfl⟩)
    | (right; right; rfl)

/-- The prompt an iteration would send from the state left by a
previous iteration is exactly that state's prompt: later attempts never
rebuild the prompt from the templates to a different value. -/
theorem promptSent_next {Row : Type} (env : Env Row) (cfg : StepCfg)
    (question : String) (s : LoopState) :
    promptSent env cfg question (oneAttempt env cfg question s).1
      = (oneAttempt env cfg question s).1.cypher_prompt := by
  rcases oneAttempt_prompt_cases env cfg question s with h | ⟨e, h⟩ | h
  · exact promptSent_of_carry env cfg question s _ h
  · exact promptSent_of_prompt_ne env cfg question _
      (by rw [h]; exact errorRepairPrompt_ne_empty e question)
  · exact promptSent_of_prompt_ne env cfg question _
      (by rw [h]; exact emptyResultPrompt_ne_empty question)

/-- Every iteration performs exactly one model send. -/
theorem oneAttempt_sends {Row : Type} (env : Env Row) (cfg : StepCfg)
    (question : String) (s : LoopState) :
    countSends (oneAttempt env cfg question s).1.trace = countSends s.trace + 1 := by
  unfold oneAttempt recover
  dsimp only
  repeat' split
  all_goals simp

/-- The trace of an iteration extends the previous trace with the send
of the iteration's prompt followed by further calls. -/
theorem oneAttempt_trace_grows {Row : Type} (env : Env Row) (cfg : StepCfg)
    (question : String) (s : LoopState) :
    ∃ rest, (oneAttempt env cfg question s).1.trace
      = s.trace ++ Call.sendMessage (promptSent env cfg question s) :: rest := by
  unfold oneAttempt recover
  dsimp only
  repeat' split
  all_goals dsimp only
  all_goals try simp only [List.append_assoc, List.singleton_append, List.cons_append,
    List.nil_append]
  all_goals exact ⟨_, rfl⟩

/-! ## Loop-level lemmas -/

theorem runLoop_done {Row : Type} (env : Env Row) (cfg : StepCfg) (question : String)
    (n : Nat) (s s' : LoopState) (r : RunResult)
    (h : oneAttempt env cfg question s = (s', some r)) :
    runLoop env cfg question (n + 1) s = (r, s') := by
  rw [runLoop, h]

theorem runLoop_continue {Row : Type} (env : Env Row) (cfg : StepCfg) (question : String)
    (n : Nat) (s s' : LoopState)
    (h : oneAttempt env cfg question s = (s', none)) :
    runLoop env cfg question (n + 1) s = runLoop env cfg question n s' := by
  rw [runLoop, h]

theorem runLoop_sends {Row : Type} (env : Env Row) (cfg : StepCfg) (question : String) :
    ∀ (n : Nat) (s : LoopState),
      countSends (runLoop env cfg question n s).2.trace ≤ countSends s.trace + n := by
  intro n
  induction n with
  | zero => intro s; simp [runLoop]
  | succ n ih =>
    intro s
    have hstep := oneAttempt_sends env cfg question s
    rcases h : oneAttempt env cfg question s with ⟨s', r?⟩
    rw [h] at hstep
    cases r? with
    | some r =>
      rw [runLoop_done env cfg question n s s' r h]
      simp only at hstep
      dsimp only
      omega
    | none =>
      rw [runLoop_continue env cfg question n s s' h]
      have := ih s'
      simp only at hstep
      omega

theorem runLoop_trace_mono {Row : Type} (env : Env Row) (cfg : StepCfg)
    (question : String) :
    ∀ (n : Nat) (s : LoopState),
      ∃ rest, (runLoop env cfg question n s).2.trace = s.trace ++ rest := by
  intro n
  induction n with
  | zero => intro s; exact ⟨[], by rw [runLoop]; simp⟩
  | succ n ih =>
    intro s
    have hstep := oneAttempt_trace_grows env cfg question s
    rcases h : oneAttempt env cfg question s with ⟨s', r?⟩
    rw [h] at hstep
    obtain ⟨rest1, hrest1⟩ := hstep
    cases r? with
    | some r =>
      rw [runLoop_done env cfg question n s s' r h]
      exact ⟨_, hrest1⟩
    | none =>
      rw [runLoop_continue env cfg question n s s' h]
      obtain ⟨rest2, hrest2⟩ := ih s'
      refine ⟨Call.sendMessage (promptSent env cfg question s) :: rest1 ++ rest2, ?_⟩
      rw [hrest2, hrest1]
      simp

/-! ## Concrete environments used to instantiate theorems -/

/-- Configuration with simple templates and no prior answer. -/
def cfgA : StepCfg :=
  { cypher_prompt := "FRESH ", cypher_prompt_with_history := "HIST ", last_answer := none }

/-- Configuration with a prior answer supplied at construction. -/
def cfgB : StepCfg :=
  { cypher_prompt := "FRESH ", cypher_prompt_with_history := "HIST ",
    last_answer := some "earlier" }

/-- Happy-path environment: the model always yields a valid query whose
execution returns one row in 5 ms. -/
def envA : Env Nat :=
  { send_message := fun _ _ => .ok "resp"
    extract_cypher := fun _ =>
      some { hasError := false, context := some "MATCH (n) RETURN n", display := none }
    validate_cypher := fun _ => none
    graph_query := fun _ _ => .ok { result_set := [42], run_time_ms := 5 }
    check_falkordb_result_set_empty := fun rs => rs.isEmpty
    stringify_falkordb_response := fun rs => toString rs
    fmtFresh := fun t q => t ++ q
    fmtHist := fun t q la => t ++ q ++ la }

/-- Environment whose replies never parse to a usable query. -/
def envNoAns : Env Nat :=
  { envA with extract_cypher := fun _ => none }

/-! ## Claim theorems -/

/-- C1: for every question and every retry limit, one invocation of
`run` performs at most `retries` model sends; each loop iteration
performs exactly one send, and the loop runs at most `retries`
iterations. -/
theorem C1_sends_bounded {Row : Type} (env : Env Row) (cfg : StepCfg)
    (question : String) (retries : Nat) :
    countSends (run env cfg question retries).2.trace ≤ retries
    ∧ ∀ s : LoopState,
        countSends (oneAttempt env cfg question s).1.trace = countSends s.trace + 1 := by
  constructor
  · have h := runLoop_sends env cfg question retries initState
    simpa [run, initState] using h
  · exact oneAttempt_sends env cfg question

/-- C2: when the first model reply yields nothing, an error marker, or
no usable query field, `run` returns the no-answer tuple (all four
fields absent) after exactly one model send, for every retry limit at
least 1; and this short-circuit is terminal on whichever attempt it
occurs (the iteration returns rather than retrying). -/
theorem C2_noAnswer_short_circuit {Row : Type} (env : Env Row) (cfg : StepCfg)
    (question : String) (retries : Nat) (text : String)
    (hret : 1 ≤ retries)
    (hsend : env.send_message 0 (buildPrompt env cfg question) = Except.ok text)
    (hbad : env.extract_cypher text = none
      ∨ ∃ result, env.extract_cypher text = some result
          ∧ (result.hasError = true ∨ result.context = none)) :
    (run env cfg question retries).1 = RunResult.ret none none none none
    ∧ countSends (run env cfg question retries).2.trace = 1
    ∧ ∀ (s : LoopState) (t : String),
        env.send_message (countSends s.trace) (promptSent env cfg question s)
          = Except.ok t →
        (env.extract_cypher t = none
          ∨ ∃ r, env.extract_cypher t = some r
              ∧ (r.hasError = true ∨ r.context = none)) →
        (oneAttempt env cfg question s).2 = some (RunResult.ret none none none none) := by
  obtain ⟨n, rfl⟩ : ∃ n, retries = n + 1 := ⟨retries - 1, by omega⟩
  have hsend' : env.send_message (countSends initState.trace)
      (promptSent env cfg question initState) = Except.ok text := by
    simpa [initState, promptSent] using hsend
  have hstep := oneAttempt_noAnswer env cfg question initState text hsend' hbad
  have hrun : run env cfg question (n + 1)
      = (RunResult.ret none none none none, afterSend env cfg question initState) := by
    unfold run
    exact runLoop_done env cfg question n initState _ _ hstep
  refine ⟨by rw [hrun], ?_, ?_⟩
  · rw [hrun]
    simp [afterSend, initState]
  · intro s t hs hb
    rw [oneAttempt_noAnswer env cfg question s t hs hb]

/-- C2 witness: with a model whose reply never parses, `run` with a
budget of 1 returns the all-absent tuple after exactly one send. -/
theorem C2_witness :
    (run envNoAns cfgA "q" 1).1 = RunResult.ret none none none none
    ∧ countSends (run envNoAns cfgA "q" 1).2.trace = 1 := by
  have h := C2_noAnswer_short_circuit envNoAns cfgA "q" 1 "resp" (by decide) rfl
    (Or.inl rfl)
  exact ⟨h.1, h.2.1⟩

/-- C3: on any attempt where the candidate query passes validation and
execution returns a non-empty row set, the iteration returns the tuple
whose context is the stringified rendering of exactly the returned
rows, whose query is the candidate query string, whose elapsed time is
the store-reported execution time, and whose display field is the
extraction result's display field (absent when absent). -/
theorem C3_success_fields {Row : Type} (env : Env Row) (cfg : StepCfg)
    (question : String) (s : LoopState) (text : String) (result : ExtractDict)
    (cypher : String) (query_result : QueryResult Row)
    (hsend : env.send_message (countSends s.trace) (promptSent env cfg question s)
      = Except.ok text)
    (hres : env.extract_cypher text = some result)
    (herr : result.hasError = false)
    (hctx : result.context = some cypher)
    (hval : env.validate_cypher cypher = none)
    (hq : env.graph_query (countQueries s.trace) cypher = Except.ok query_result)
    (hempty : env.check_falkordb_result_set_empty query_result.result_set = false) :
    (oneAttempt env cfg question s).2
      = some (RunResult.ret
          (some (env.stringify_falkordb_response query_result.result_set))
          (some cypher) (some query_result.run_time_ms) result.display) := by
  rw [oneAttempt_success_nonempty env cfg question s text result cypher query_result
    hsend hres herr hctx hval hq hempty]

/-- C3 witness: concrete happy-path attempt returning one row in 5 ms. -/
theorem C3_witness :
    (oneAttempt envA cfgA "q" initState).2
      = some (RunResult.ret (some (envA.stringify_falkordb_response [42]))
          (some "MATCH (n) RETURN n") (some 5) none) :=
  C3_success_fields envA cfgA "q" initState "resp"
    { hasError := false, context := some "MATCH (n) RETURN n", display := none }
    "MATCH (n) RETURN n" { result_set := [42], run_time_ms := 5 }
    rfl rfl rfl rfl rfl rfl rfl

/-- Environment whose validator reports a violation mentioning the
rate-limit marker, so the internal validation raise is misclassified
as a rate-limit error. -/
def envValRL : Env Nat :=
  { envA with validate_cypher := fun _ => some ["litellm.RateLimitError hit"] }

/-- Environment whose validator always reports one ordinary violation. -/
def envValBad : Env Nat :=
  { envA with validate_cypher := fun _ => some ["bad label"] }

/-- C4 counterexample: on attempt 1 of 2 the candidate query fails
schema validation with the non-empty violation list
`["litellm.RateLimitError hit"]`, yet the prompt sent on attempt 2 is
the unchanged original prompt `"FRESH q"`, which does not contain the
joined violation text — the claim's clause "the prompt sent on the next
attempt contains the violation messages joined together" is false here,
because the violation text triggers the rate-limit classification. -/
theorem C4_counterexample :
    envValRL.validate_cypher "MATCH (n) RETURN n" = some ["litellm.RateLimitError hit"]
    ∧ (run envValRL cfgA "q" 2).2.trace
        = [Call.sendMessage "FRESH q", Call.deleteLastMessage,
           Call.sendMessage "FRESH q", Call.deleteLastMessage]
    ∧ strHasSub "FRESH q" (String.intercalate "\n" ["litellm.RateLimitError hit"])
        = false := by
  refine ⟨rfl, ?_, ?_⟩ <;> decide

/-- C4 (amended): when a candidate query fails schema validation with a
non-empty violation list whose joined text is not rate-limit-classified
(it does not contain the substring `litellm.RateLimitError`), the query
is not executed against the graph store during that attempt and the
prompt sent on the next attempt contains the violation messages joined
together; when the joined text does contain the marker, the rate-limit
recovery path runs instead and the prompt is left unchanged (the query
is still not executed). -/
theorem C4_validation_repair {Row : Type} (env : Env Row) (cfg : StepCfg)
    (question : String) (s : LoopState) (text : String) (result : ExtractDict)
    (cypher : String) (validation_errors : List String)
    (hsend : env.send_message (countSends s.trace) (promptSent env cfg question s)
      = Except.ok text)
    (hres : env.extract_cypher text = some result)
    (herr : result.hasError = false)
    (hctx : result.context = some cypher)
    (hval : env.validate_cypher cypher = some validation_errors)
    (hne : validation_errors ≠ [])
    (hnotrl : strHasSub (String.intercalate "\n" validation_errors) rateLimitMarker
      = false) :
    (oneAttempt env cfg question s).2 = none
    ∧ countQueries (oneAttempt env cfg question s).1.trace = countQueries s.trace
    ∧ (oneAttempt env cfg question s).1.cypher_prompt
        = errorRepairPrompt (String.intercalate "\n" validation_errors) question
    ∧ promptSent env cfg question (oneAttempt env cfg question s).1
        = errorRepairPrompt (String.intercalate "\n" validation_errors) question
    ∧ strHasSub (promptSent env cfg question (oneAttempt env cfg question s).1)
        (String.intercalate "\n" validation_errors) = true := by
  have hstep := oneAttempt_validation_fail env cfg question s text result cypher
    validation_errors hsend hres herr hctx hval
  have hrec : oneAttempt env cfg question s
      = ({ afterSend env cfg question s with
            error := some (String.intercalate "\n" validation_errors),
            cypher_prompt
              := errorRepairPrompt (String.intercalate "\n" validation_errors) question },
          none) := by
    rw [hstep, recover_not_rateLimit question _ _ hnotrl]
  rw [hrec]
  have hps : promptSent env cfg question
      ({ afterSend env cfg question s with
          error := some (String.intercalate "\n" validation_errors),
          cypher_prompt
            := errorRepairPrompt (String.intercalate "\n" validation_errors) question })
      = errorRepairPrompt (String.intercalate "\n" validation_errors) question := by
    exact promptSent_of_prompt_ne env cfg question _
      (errorRepairPrompt_ne_empty _ question)
  refine ⟨rfl, by simp [afterSend], rfl, hps, ?_⟩
  rw [hps]
  exact errorRepairPrompt_has_error _ question

/-- C4 witness: a plain violation (`"bad label"`) leads to an
error-repair prompt containing the violation text, without executing
the query. -/
theorem C4_witness :
    (oneAttempt envValBad cfgA "q" initState).2 = none
    ∧ countQueries (oneAttempt envValBad cfgA "q" initState).1.trace
        = countQueries initState.trace
    ∧ (oneAttempt envValBad cfgA "q" initState).1.cypher_prompt
        = errorRepairPrompt (String.intercalate "\n" ["bad label"]) "q"
    ∧ promptSent envValBad cfgA "q" (oneAttempt envValBad cfgA "q" initState).1
        = errorRepairPrompt (String.intercalate "\n" ["bad label"]) "q"
    ∧ strHasSub (promptSent envValBad cfgA "q" (oneAttempt envValBad cfgA "q" initState).1)
        (String.intercalate "\n" ["bad label"]) = true :=
  C4_validation_repair envValBad cfgA "q" initState "resp"
    { hasError := false, context := some "MATCH (n) RETURN n", display := none }
    "MATCH (n) RETURN n" ["bad label"] rfl rfl rfl rfl rfl (by decide) (by decide)

/-- Environment whose queries always come back with an empty result
set. -/
def envEmptyQ : Env Nat :=
  { envA with graph_query := fun _ _ => .ok { result_set := [], run_time_ms := 3 } }

/-- Loop state in which the candidate query of `envA` is already the
recorded last empty-yielding query. -/
def stateRepeat : LoopState :=
  { initState with last_empty_query := some "MATCH (n) RETURN n" }

/-- C5: when an attempt's query yields an empty row set, the iteration
accepts the empty result as final exactly when the query equals the
recorded last empty-yielding query — returning the success tuple with
the stringified empty row set — and otherwise records the query,
installs the empty-result repair prompt, and retries. -/
theorem C5_empty_idempotence {Row : Type} (env : Env Row) (cfg : StepCfg)
    (question : String) (s : LoopState) (text : String) (result : ExtractDict)
    (cypher : String) (query_result : QueryResult Row)
    (hsend : env.send_message (countSends s.trace) (promptSent env cfg question s)
      = Except.ok text)
    (hres : env.extract_cypher text = some result)
    (herr : result.hasError = false)
    (hctx : result.context = some cypher)
    (hval : env.validate_cypher cypher = none)
    (hq : env.graph_query (countQueries s.trace) cypher = Except.ok query_result)
    (hempty : env.check_falkordb_result_set_empty query_result.result_set = true) :
    (s.last_empty_query = some cypher →
      (oneAttempt env cfg question s).2
        = some (RunResult.ret
            (some (env.stringify_falkordb_response query_result.result_set))
            (some cypher) (some query_result.run_time_ms) result.display))
    ∧ (s.last_empty_query ≠ some cypher →
      (oneAttempt env cfg question s).2 = none
      ∧ (oneAttempt env cfg question s).1.last_empty_query = some cypher
      ∧ (oneAttempt env cfg question s).1.cypher_prompt = emptyResultPrompt question) := by
  constructor
  · intro hrep
    rw [oneAttempt_success_repeat env cfg question s text result cypher query_result
      hsend hres herr hctx hval hq hrep]
  · intro hdiff
    rw [oneAttempt_empty_retry env cfg question s text result cypher query_result
      hsend hres herr hctx hval hq hempty hdiff]
    exact ⟨rfl, rfl, rfl⟩

/-- C5 witness: a repeated empty-yielding query is accepted as final
with the stringified empty row set, and a fresh empty-yielding query is
recorded and retried with the empty-result repair prompt. -/
theorem C5_witness :
    ((oneAttempt envEmptyQ cfgA "q" stateRepeat).2
      = some (RunResult.ret (some (envEmptyQ.stringify_falkordb_response []))
          (some "MATCH (n) RETURN n") (some 3) none))
    ∧ ((oneAttempt envEmptyQ cfgA "q" initState).2 = none
      ∧ (oneAttempt envEmptyQ cfgA "q" initState).1.last_empty_query
          = some "MATCH (n) RETURN n"
      ∧ (oneAttempt envEmptyQ cfgA "q" initState).1.cypher_prompt
          = emptyResultPrompt "q") := by
  constructor
  · exact (C5_empty_idempotence envEmptyQ cfgA "q" stateRepeat "resp"
      { hasError := false, context := some "MATCH (n) RETURN n", display := none }
      "MATCH (n) RETURN n" { result_set := [], run_time_ms := 3 }
      rfl rfl rfl rfl rfl rfl rfl).1 rfl
  · exact (C5_empty_idempotence envEmptyQ cfgA "q" initState "resp"
      { hasError := false, context := some "MATCH (n) RETURN n", display := none }
      "MATCH (n) RETURN n" { result_set := [], run_time_ms := 3 }
      rfl rfl rfl rfl rfl rfl rfl).2 (by decide)

/-- Full description of an iteration that raises an error `e`: it
always continues the loop (consuming one attempt and one send), records
the error, and the two recovery paths are selected exactly by whether
`e` contains the rate-limit marker. -/
theorem oneAttempt_raised_spec {Row : Type} (env : Env Row) (cfg : StepCfg)
    (question : String) (s : LoopState) (e : String)
    (hraise : attemptRaised env cfg question s e) :
    (oneAttempt env cfg question s).2 = none
    ∧ (oneAttempt env cfg question s).1.error = some e
    ∧ countSends (oneAttempt env cfg question s).1.trace = countSends s.trace + 1
    ∧ (strHasSub e rateLimitMarker = true →
        (oneAttempt env cfg question s).1.cypher_prompt = promptSent env cfg question s
        ∧ countDeletes (oneAttempt env cfg question s).1.trace = countDeletes s.trace + 1)
    ∧ (strHasSub e rateLimitMarker = false →
        (oneAttempt env cfg question s).1.cypher_prompt = errorRepairPrompt e question
        ∧ countDeletes (oneAttempt env cfg question s).1.trace = countDeletes s.trace) := by
  rcases hraise with h1
    | ⟨text, result, cypher, verrs, hsend, hres, herr, hctx, hval, he⟩
    | ⟨text, result, cypher, hsend, hres, herr, hctx, hval, hq⟩
  · rw [oneAttempt_send_error env cfg question s e h1]
    cases hb : strHasSub e rateLimitMarker with
    | true =>
      rw [recover_rateLimit question e _ hb]
      exact ⟨rfl, rfl, by simp [afterSend], fun _ => ⟨rfl, by simp [afterSend]⟩,
        fun hf => absurd hf (by decide)⟩
    | false =>
      rw [recover_not_rateLimit question e _ hb]
      exact ⟨rfl, rfl, by simp [afterSend],
        fun ht => absurd ht (by decide),
        fun _ => ⟨rfl, by simp [afterSend]⟩⟩
  · subst he
    rw [oneAttempt_validation_fail env cfg question s text result cypher verrs
      hsend hres herr hctx hval]
    cases hb : strHasSub (String.intercalate "\n" verrs) rateLimitMarker with
    | true =>
      rw [recover_rateLimit question _ _ hb]
      exact ⟨rfl, rfl, by simp [afterSend], fun _ => ⟨rfl, by simp [afterSend]⟩,
        fun hf => absurd hf (by decide)⟩
    | false =>
      rw [recover_not_rateLimit question _ _ hb]
      exact ⟨rfl, rfl, by simp [afterSend],
        fun ht => absurd ht (by decide),
        fun _ => ⟨rfl, by simp [afterSend]⟩⟩
  · rw [oneAttempt_query_error env cfg question s text result cypher e
      hsend hres herr hctx hval hq]
    cases hb : strHasSub e rateLimitMarker with
    | true =>
      rw [recover_rateLimit question e _ hb]
      exact ⟨rfl, rfl, by simp [afterQuery], fun _ => ⟨rfl, by simp [afterQuery]⟩,
        fun hf => absurd hf (by decide)⟩
    | false =>
      rw [recover_not_rateLimit question e _ hb]
      exact ⟨rfl, rfl, by simp [afterQuery],
        fun ht => absurd ht (by decide),
        fun _ => ⟨rfl, by simp [afterQuery]⟩⟩

/-- Environment whose model session raises a rate-limit error on every
send. -/
def envSendRL : Env Nat :=
  { envA with send_message := fun _ _ => .error "litellm.RateLimitError: slow down" }

/-- C6: an attempt failing with a rate-limit-classified error leaves
the prompt unchanged (the identical prompt would be resent on the next
attempt), discards the session's most recent turn exactly once, and
still consumes one unit of the retry budget (one send, and the
iteration continues rather than returning). -/
theorem C6_rate_limit_recovery {Row : Type} (env : Env Row) (cfg : StepCfg)
    (question : String) (s : LoopState) (e : String)
    (hraise : attemptRaised env cfg question s e)
    (hrl : strHasSub e rateLimitMarker = true) :
    (oneAttempt env cfg question s).2 = none
    ∧ (oneAttempt env cfg question s).1.cypher_prompt = promptSent env cfg question s
    ∧ promptSent env cfg question (oneAttempt env cfg question s).1
        = promptSent env cfg question s
    ∧ countDeletes (oneAttempt env cfg question s).1.trace = countDeletes s.trace + 1
    ∧ countSends (oneAttempt env cfg question s).1.trace = countSends s.trace + 1 := by
  obtain ⟨h0, _he, hsends, hpos, _⟩ :=
    oneAttempt_raised_spec env cfg question s e hraise
  obtain ⟨hprompt, hdel⟩ := hpos hrl
  exact ⟨h0, hprompt, (promptSent_next env cfg question s).trans hprompt, hdel, hsends⟩

/-- C6 witness: a send-time rate-limit failure at the initial state. -/
theorem C6_witness :
    (oneAttempt envSendRL cfgA "q" initState).2 = none
    ∧ (oneAttempt envSendRL cfgA "q" initState).1.cypher_prompt
        = promptSent envSendRL cfgA "q" initState
    ∧ promptSent envSendRL cfgA "q" (oneAttempt envSendRL cfgA "q" initState).1
        = promptSent envSendRL cfgA "q" initState
    ∧ countDeletes (oneAttempt envSendRL cfgA "q" initState).1.trace
        = countDeletes initState.trace + 1
    ∧ countSends (oneAttempt envSendRL cfgA "q" initState).1.trace
        = countSends initState.trace + 1 :=
  C6_rate_limit_recovery envSendRL cfgA "q" initState
    "litellm.RateLimitError: slow down" (Or.inl rfl) (by decide)

/-- C10: a caught error is classified as rate-limited exactly when its
string contains the substring `litellm.RateLimitError`: if it does —
whatever its source, including the internally raised
validation-violation error and graph-store execution errors — the
session-repair path runs (one turn discarded, prompt unchanged);
otherwise the prompt-repair path runs (no turn discarded, prompt
replaced by the error repair instruction). -/
theorem C10_error_classification {Row : Type} (env : Env Row) (cfg : StepCfg)
    (question : String) (s : LoopState) (e : String)
    (hraise : attemptRaised env cfg question s e) :
    (strHasSub e rateLimitMarker = true →
      (oneAttempt env cfg question s).1.cypher_prompt = promptSent env cfg question s
      ∧ countDeletes (oneAttempt env cfg question s).1.trace = countDeletes s.trace + 1
      ∧ (oneAttempt env cfg question s).2 = none)
    ∧ (strHasSub e rateLimitMarker = false →
      (oneAttempt env cfg question s).1.cypher_prompt = errorRepairPrompt e question
      ∧ countDeletes (oneAttempt env cfg question s).1.trace = countDeletes s.trace
      ∧ (oneAttempt env cfg question s).2 = none) := by
  obtain ⟨h0, _he, _hsends, hpos, hneg⟩ :=
    oneAttempt_raised_spec env cfg question s e hraise
  exact ⟨fun hb => ⟨(hpos hb).1, (hpos hb).2, h0⟩,
    fun hb => ⟨(hneg hb).1, (hneg hb).2, h0⟩⟩

/-- C10 witness: the validation-violation error of `envValRL` contains
the marker and takes the session-repair path. -/
theorem C10_witness :
    (oneAttempt envValRL cfgA "q" initState).1.cypher_prompt
        = promptSent envValRL cfgA "q" initState
    ∧ countDeletes (oneAttempt envValRL cfgA "q" initState).1.trace
        = countDeletes initState.trace + 1
    ∧ (oneAttempt envValRL cfgA "q" initState).2 = none :=
  (C10_error_classification envValRL cfgA "q" initState
      (String.intercalate "\n" ["litellm.RateLimitError hit"])
      (Or.inr (Or.inl ⟨"resp",
        { hasError := false, context := some "MATCH (n) RETURN n", display := none },
        "MATCH (n) RETURN n", ["litellm.RateLimitError hit"],
        rfl, rfl, rfl, rfl, rfl, rfl⟩))).1 (by decide)

/-- Environment in which every attempt yields a fresh query whose
execution returns an empty result set, so every iteration takes the
empty-result retry branch and no error is ever recorded. -/
def envEmptyFresh : Env Nat :=
  { envA with
    send_message := fun i _ => .ok (toString i)
    extract_cypher := fun t => some { hasError := false, context := some t, display := none }
    graph_query := fun _ _ => .ok { result_set := [], run_time_ms := 1 } }

/-- C7: when the retry budget is exhausted the trailing raise reads the
local `error`; in executions where no error was ever recorded —
`retries = 0`, or every consumed attempt was an empty-result retry —
the code crashes on the undefined variable reference (modelled as
`RunResult.nameError`) instead of failing with an "unknown" marker;
when an error was recorded the failure carries the most recent error. -/
theorem C7_unbound_error_crash :
    (run envA cfgA "q" 0).1 = RunResult.nameError
    ∧ (run envEmptyFresh cfgA "q" 2).1 = RunResult.nameError
    ∧ (run envValBad cfgA "q" 2).1
        = RunResult.raised ("Failed to generate Cypher query: " ++ "bad label") := by
  refine ⟨rfl, ?_, ?_⟩ <;> decide

/-- C8: on the first attempt the prompt is built from the fresh
template (filled with the question) when no prior answer was supplied
at construction, and from the with-history template (filled with the
question and the prior answer) when one was supplied; on every later
attempt the prompt sent is exactly the prompt value left by the
previous iteration, never a fresh template rebuild that changes it. -/
theorem C8_prompt_selection {Row : Type} (env : Env Row) (cfg : StepCfg)
    (question : String) (retries : Nat) (hret : 1 ≤ retries) :
    ((cfg.last_answer = none →
        (run env cfg question retries).2.trace.head?
          = some (Call.sendMessage (env.fmtFresh cfg.cypher_prompt question)))
      ∧ ∀ la, cfg.last_answer = some la →
          (run env cfg question retries).2.trace.head?
            = some (Call.sendMessage
                (env.fmtHist cfg.cypher_prompt_with_history question la)))
    ∧ ∀ s : LoopState,
        promptSent env cfg question (oneAttempt env cfg question s).1
          = (oneAttempt env cfg question s).1.cypher_prompt := by
  obtain ⟨n, rfl⟩ : ∃ n, retries = n + 1 := ⟨retries - 1, by omega⟩
  have hhead : (run env cfg question (n + 1)).2.trace.head?
      = some (Call.sendMessage (buildPrompt env cfg question)) := by
    have hp0 : promptSent env cfg question initState = buildPrompt env cfg question := by
      simp [promptSent, initState]
    obtain ⟨rest1, hrest1⟩ := oneAttempt_trace_grows env cfg question initState
    unfold run
    rcases h : oneAttempt env cfg question initState with ⟨s', r?⟩
    rw [h] at hrest1
    cases r? with
    | some r =>
      rw [runLoop_done env cfg question n initState s' r h]
      dsimp only
      dsimp only at hrest1
      rw [hrest1, hp0]
      simp [initState]
    | none =>
      rw [runLoop_continue env cfg question n initState s' h]
      obtain ⟨rest2, hrest2⟩ := runLoop_trace_mono env cfg question n s'
      dsimp only at hrest1
      rw [hrest2, hrest1, hp0]
      simp [initState]
  refine ⟨⟨?_, ?_⟩, promptSent_next env cfg question⟩
  · intro hla
    rw [hhead]
    simp [buildPrompt, hla]
  · intro la hla
    rw [hhead]
    simp [buildPrompt, hla]

/-- C8 witness: the first send uses the fresh template without a prior
answer and the with-history template with one. -/
theorem C8_witness :
    (run envA cfgA "q" 1).2.trace.head?
        = some (Call.sendMessage (envA.fmtFresh cfgA.cypher_prompt "q"))
    ∧ (run envA cfgB "q" 1).2.trace.head?
        = some (Call.sendMessage
            (envA.fmtHist cfgB.cypher_prompt_with_history "q" "earlier")) := by
  refine ⟨?_, ?_⟩
  · exact ((C8_prompt_selection envA cfgA "q" 1 (by decide)).1).1 rfl
  · exact ((C8_prompt_selection envA cfgB "q" 1 (by decide)).1).2 "earlier" rfl

/-- Case analysis of the recorded last empty-yielding query across one
iteration: it is either untouched, or overwritten by a different
empty-yielding query in the retry branch. -/
theorem oneAttempt_last_empty_cases {Row : Type} (env : Env Row) (cfg : StepCfg)
    (question : String) (s : LoopState) :
    (oneAttempt env cfg question s).1.last_empty_query = s.last_empty_query
    ∨ ∃ cypher, (oneAttempt env cfg question s).1.last_empty_query = some cypher
        ∧ s.last_empty_query ≠ some cypher
        ∧ (oneAttempt env cfg question s).2 = none
        ∧ (oneAttempt env cfg question s).1.cypher_prompt
            = emptyResultPrompt question := by
  unfold oneAttempt recover
  dsimp only
  repeat' split
  all_goals first
    | (left; rfl)
    | (rename_i h; right; exact ⟨_, rfl, h.2, rfl, rfl⟩)

/-- C9: the recorded last empty-yielding query is never cleared during
an invocation — once set it stays set, is only overwritten by a
different empty-yielding query (which triggers the retry branch), and
an empty result from a query equal to the recorded one is accepted as
final from any intermediate state, regardless of what recovery attempts
happened in between. -/
theorem C9_last_empty_persistence {Row : Type} (env : Env Row) (cfg : StepCfg)
    (question : String) :
    (∀ (s : LoopState) (q0 : String), s.last_empty_query = some q0 →
      ∃ q1, (oneAttempt env cfg question s).1.last_empty_query = some q1)
    ∧ (∀ s : LoopState,
        (oneAttempt env cfg question s).1.last_empty_query = s.last_empty_query
        ∨ ∃ cypher, (oneAttempt env cfg question s).1.last_empty_query = some cypher
            ∧ s.last_empty_query ≠ some cypher
            ∧ (oneAttempt env cfg question s).2 = none
            ∧ (oneAttempt env cfg question s).1.cypher_prompt
                = emptyResultPrompt question)
    ∧ (∀ (s : LoopState) (text : String) (result : ExtractDict) (cypher : String)
        (query_result : QueryResult Row),
        env.send_message (countSends s.trace) (promptSent env cfg question s)
          = Except.ok text →
        env.extract_cypher text = some result →
        result.hasError = false →
        result.context = some cypher →
        env.validate_cypher cypher = none →
        env.graph_query (countQueries s.trace) cypher = Except.ok query_result →
        env.check_falkordb_result_set_empty query_result.result_set = true →
        s.last_empty_query = some cypher →
        (oneAttempt env cfg question s).2
          = some (RunResult.ret
              (some (env.stringify_falkordb_response query_result.result_set))
              (some cypher) (some query_result.run_time_ms) result.display)) := by
  refine ⟨?_, fun s => oneAttempt_last_empty_cases env cfg question s, ?_⟩
  · intro s q0 h0
    rcases oneAttempt_last_empty_cases env cfg question s with h | ⟨cy, h, _⟩
    · exact ⟨q0, h.trans h0⟩
    · exact ⟨cy, h⟩
  · intro s text result cypher query_result hsend hres herr hctx hval hq hempty hrep
    rw [oneAttempt_success_repeat env cfg question s text result cypher query_result
      hsend hres herr hctx hval hq hrep]

/-- C9 witness: with the last empty-yielding query already recorded,
the record persists through the iteration and the repeated
empty-yielding query is accepted as final. -/
theorem C9_witness :
    (∃ q1, (oneAttempt envEmptyQ cfgA "q" stateRepeat).1.last_empty_query = some q1)
    ∧ (oneAttempt envEmptyQ cfgA "q" stateRepeat).2
        = some (RunResult.ret (some (envEmptyQ.stringify_falkordb_response []))
            (some "MATCH (n) RETURN n") (some 3) none) := by
  refine ⟨(C9_last_empty_persistence envEmptyQ cfgA "q").1 stateRepeat
    "MATCH (n) RETURN n" rfl, ?_⟩
  exact (C9_last_empty_persistence envEmptyQ cfgA "q").2.2 stateRepeat "resp"
    { hasError := false, context := some "MATCH (n) RETURN n", display := none }
    "MATCH (n) RETURN n" { result_set := [], run_time_ms := 3 }
    rfl rfl rfl rfl rfl rfl rfl rfl
